import Mathlib

/-!
Verification of the workflow-audit normalization and diff pipeline
(`scripts/ingest_codex_jsonl.py`, `scripts/compare_workflows.py`,
`scripts/run_workflow_simulation.py`).

The Python source is shallowly embedded: every definition below is a direct
translation of the corresponding Python function, keeping its name where Lean
allows it.  Character classes of the two regular expressions
(`TODO ID:\s*(todo-\d+)` and `STATUS:\s*(\w+)`, both IGNORECASE) and the
`str.strip` / `str.lower` / `str.splitlines` methods are modelled over their
ASCII behaviour, which coincides with Python's on the ASCII payload texts the
pipeline handles.
-/

set_option autoImplicit false

namespace WorkflowAudit

/-! ### Python string primitives -/

/-- Decides whether `pre` is a prefix of `l`, character by character. -/
def isCharPrefix : List Char → List Char → Bool
  | [], _ => true
  | _ :: _, [] => false
  | p :: ps, c :: cs => p = c && isCharPrefix ps cs

/-- Decides whether `needle` occurs as a contiguous sublist of `hay`
(Python `needle in hay` on strings). -/
def containsSubList (needle : List Char) : List Char → Bool
  | [] => isCharPrefix needle []
  | c :: rest => isCharPrefix needle (c :: rest) || containsSubList needle rest

/-- Python `needle in hay` for strings. -/
def pyContains (hay needle : String) : Bool :=
  containsSubList needle.data hay.data

/-- Python `s.startswith(pre)`. -/
def pyStartswith (s pre : String) : Bool :=
  isCharPrefix pre.data s.data

/-- Python `s.endswith(suf)`. -/
def pyEndswith (s suf : String) : Bool :=
  isCharPrefix suf.data.reverse s.data.reverse

/-- Python `s.lower()` (ASCII case folding). -/
def pyLower (s : String) : String :=
  String.mk (s.data.map Char.toLower)

/-- Membership in Python's `str.strip` whitespace set (ASCII part). -/
def isPySpace (c : Char) : Bool :=
  c = ' ' || c = '\t' || c = '\n' || c = '\x0d' || c = '\x0b' || c = '\x0c'

/-- Python `s.strip()`. -/
def pyStrip (s : String) : String :=
  String.mk (((s.data.dropWhile isPySpace).reverse.dropWhile isPySpace).reverse)

/-- Line-break characters recognised by Python `str.splitlines` (ASCII part). -/
def isLineBreakChar (c : Char) : Bool :=
  c = '\n' || c = '\x0d' || c = '\x0b' || c = '\x0c' ||
  c = '\x1c' || c = '\x1d' || c = '\x1e'

/-- Worker for `pySplitlines`: `acc` holds the current line reversed. -/
def splitlinesAux : List Char → List Char → List String
  | [], acc => if acc.isEmpty then [] else [String.mk acc.reverse]
  | '\x0d' :: '\n' :: rest, acc => String.mk acc.reverse :: splitlinesAux rest []
  | c :: rest, acc =>
    if isLineBreakChar c then String.mk acc.reverse :: splitlinesAux rest []
    else splitlinesAux rest (c :: acc)

/-- Python `s.splitlines()`: line breaks are dropped, `\r\n` counts as one
break, and a trailing break produces no extra empty line. -/
def pySplitlines (s : String) : List String :=
  splitlinesAux s.data []

/-- The text after the first `:` of `line` (Python `line.split(":", 1)[1]`).
The one caller guards the call so that a colon is always present; on a
colon-free line Python would raise `IndexError`, here we return `""`. -/
def afterFirstColon (line : String) : String :=
  match line.data.dropWhile (fun c => !(c = ':')) with
  | _ :: rest => String.mk rest
  | [] => ""

/-! ### The two regular expressions

`re.search` scans start positions left to right and at each one attempts the
whole pattern; both patterns start with a literal, and `\s*`/`\d+`/`\w+` are
greedy with no backtracking possible (the follow sets are disjoint), so the
direct scan below matches `re` semantics exactly. -/

/-- Consumes `pre` from the head of `cs` up to ASCII case, returning the
remainder (IGNORECASE literal matching). -/
def dropCaselessPrefix : List Char → List Char → Option (List Char)
  | [], cs => some cs
  | _ :: _, [] => none
  | p :: ps, c :: cs =>
    if p.toLower = c.toLower then dropCaselessPrefix ps cs else none

/-- Membership in the regex class `\w` (ASCII part). -/
def isPyWord (c : Char) : Bool :=
  c.isAlphanum || c = '_'

/-- Attempts `TODO ID:\s*(todo-\d+)` (IGNORECASE) anchored at the head of
`cs`; returns the captured group with its original casing. -/
def matchTodoAt (cs : List Char) : Option String :=
  match dropCaselessPrefix "TODO ID:".data cs with
  | none => none
  | some rest =>
    let rest2 := rest.dropWhile isPySpace
    match dropCaselessPrefix "todo-".data rest2 with
    | none => none
    | some rest3 =>
      let digits := rest3.takeWhile Char.isDigit
      if digits.isEmpty then none
      else some (String.mk (rest2.take 5 ++ digits))

/-- `TODO_ID_PATTERN.search`: leftmost match of `TODO ID:\s*(todo-\d+)`
(IGNORECASE), returning the captured group. -/
def todoIdSearch : List Char → Option String
  | [] => none
  | c :: cs =>
    match matchTodoAt (c :: cs) with
    | some s => some s
    | none => todoIdSearch cs

/-- Attempts `STATUS:\s*(\w+)` (IGNORECASE) anchored at the head of `cs`. -/
def matchStatusAt (cs : List Char) : Option String :=
  match dropCaselessPrefix "STATUS:".data cs with
  | none => none
  | some rest =>
    let word := (rest.dropWhile isPySpace).takeWhile isPyWord
    if word.isEmpty then none else some (String.mk word)

/-- Leftmost match of `STATUS:\s*(\w+)` (IGNORECASE), returning the captured
group. -/
def statusSearch : List Char → Option String
  | [] => none
  | c :: cs =>
    match matchStatusAt (c :: cs) with
    | some s => some s
    | none => statusSearch cs

/-- The status token of a message body:
`status_match.group(1).lower() if status_match else ""`. -/
def statusTokenOf (content : String) : String :=
  match statusSearch content.data with
  | some w => pyLower w
  | none => ""

/-! ### Data model (`ingest_codex_jsonl.py` dataclasses) -/

/-- Dataclass `EventRecord`. -/
structure EventRecord where
  sequence : Nat
  timestamp : String
  sender : String
  recipient : String
  role : String
  payload_type : String
  content : String
  deriving Repr, DecidableEq, Inhabited

/-- Dataclass `StateSnapshot`.  `todo_statuses` is an insertion-ordered
association list, mirroring a Python `dict`. -/
structure StateSnapshot where
  timestamp : String
  phase : String
  active_todo : Option String
  todo_statuses : List (String × String)
  note : String
  deriving Repr, DecidableEq, Inhabited

/-- Dataclass `ValidationResult`. -/
structure ValidationResult where
  name : String
  status : String
  missing_sections : List String
  deriving Repr, DecidableEq, Inhabited

/-! ### Python dict operations on association lists -/

/-- Python `d[k]` lookup as an option. -/
def dLookup (d : List (String × String)) (k : String) : Option String :=
  match d with
  | [] => none
  | (k', v) :: rest => if k' = k then some v else dLookup rest k

/-- Python `d[k] = v`: updates the entry in place when the key is present
(keeping insertion order), appends it otherwise. -/
def dictSet (d : List (String × String)) (k v : String) : List (String × String) :=
  match d with
  | [] => [(k, v)]
  | (k', v') :: rest => if k' = k then (k, v) :: rest else (k', v') :: dictSet rest k v

/-! ### State machine reconstructor (`build_state_snapshots`) -/

/-- The mutable locals of `build_state_snapshots`, threaded through the event
loop.  `snapshots` accumulates in emission order.  The `defaultdict` default
of `todo_status` is never read by the source (every access is an assignment),
so a plain association list is faithful. -/
structure ReconState where
  todo_status : List (String × String)
  snapshots : List StateSnapshot
  active_todo : Option String
  phase : String
  deriving Repr, DecidableEq, Inhabited

/-- The nested `append_snapshot` helper: captures the current phase, active
item and a copy of the status mapping. -/
def appendSnapshot (st : ReconState) (note timestamp : String) : ReconState :=
  { st with snapshots := st.snapshots ++
      [{ timestamp := timestamp, phase := st.phase, active_todo := st.active_todo,
         todo_statuses := st.todo_status, note := note }] }

/-- One iteration of the event loop of `build_state_snapshots`. -/
def stepEvent (st : ReconState) (event : EventRecord) : ReconState :=
  match todoIdSearch event.content.data with
  | none => st
  | some todo_id =>
    if event.payload_type = "coder_payload" then
      let st := { st with phase := "dispatch", active_todo := some todo_id,
                          todo_status := dictSet st.todo_status todo_id "in_progress" }
      appendSnapshot st ("Dispatching " ++ todo_id ++ " to coder.") event.timestamp
    else if event.payload_type = "coder_response" then
      if statusTokenOf event.content = "success" then
        let st := { st with phase := "verifying",
                            todo_status := dictSet st.todo_status todo_id "verifying" }
        appendSnapshot st ("Awaiting tester results for " ++ todo_id ++ ".") event.timestamp
      else
        let st := { st with phase := "escalating",
                            todo_status := dictSet st.todo_status todo_id "blocked" }
        appendSnapshot st ("Coder reported failure for " ++ todo_id ++ ".") event.timestamp
    else if event.payload_type = "tester_payload" then
      let st := { st with phase := "verifying" }
      appendSnapshot st ("Tester engaged for " ++ todo_id ++ ".") event.timestamp
    else if event.payload_type = "tester_response" then
      if statusTokenOf event.content = "pass" then
        let st := { st with todo_status := dictSet st.todo_status todo_id "complete",
                            phase := "dispatch" }
        appendSnapshot st ("Tester passed " ++ todo_id ++ "; returning to queue.") event.timestamp
      else
        let st := { st with todo_status := dictSet st.todo_status todo_id "blocked",
                            phase := "escalating" }
        appendSnapshot st ("Tester failed " ++ todo_id ++ "; escalating.") event.timestamp
    else if event.payload_type = "stuck_payload" then
      let st := { st with phase := "escalating" }
      appendSnapshot st ("Escalating " ++ todo_id ++ " to stuck agent.") event.timestamp
    else if event.payload_type = "stuck_response" then
      let st := { st with phase := "planning",
                          todo_status := dictSet st.todo_status todo_id "pending" }
      appendSnapshot st ("Human guidance received for " ++ todo_id ++ ".") event.timestamp
    else st

/-- The initial reconstructor state. -/
def reconInit : ReconState :=
  { todo_status := [], snapshots := [], active_todo := none, phase := "bootstrap" }

/-- The state before the event loop: the unconditional bootstrap snapshot is
appended first whenever the event stream is non-empty, stamped with the first
event's timestamp. -/
def buildStart (events : List EventRecord) : ReconState :=
  match events with
  | [] => reconInit
  | e :: _ => appendSnapshot reconInit "Captured session metadata from raw log." e.timestamp

/-- `build_state_snapshots`: the bootstrap snapshot on a non-empty stream,
then the per-event transition loop. -/
def build_state_snapshots (events : List EventRecord) : List StateSnapshot :=
  (events.foldl stepEvent (buildStart events)).snapshots

/-! ### Raw JSON events -/

/-- JSON values as parsed from one JSONL line.  Numbers are modelled as
integers: no claim depends on fractional values, only on a number not being a
string or object. -/
inductive Json where
  | null : Json
  | bool : Bool → Json
  | num : Int → Json
  | str : String → Json
  | arr : List Json → Json
  | obj : List (String × Json) → Json
  deriving Inhabited

/-- A raw log record: a JSON object, i.e. its field list. -/
abbrev RawEvent := List (String × Json)

/-- Python `d.get(k)` on a JSON object. -/
def jlookup (fields : List (String × Json)) (k : String) : Option Json :=
  match fields with
  | [] => none
  | (k', v) :: rest => if k' = k then some v else jlookup rest k

/-- Python truthiness of a JSON-derived value. -/
def jTruthy : Json → Bool
  | Json.null => false
  | Json.bool b => b
  | Json.num n => !(n = 0)
  | Json.str s => !(s = "")
  | Json.arr xs => !xs.isEmpty
  | Json.obj fs => !fs.isEmpty

/-- The first truthy value of a `get(..) or get(..) or ...` chain. -/
def firstTruthy : List (Option Json) → Option Json
  | [] => none
  | some v :: rest => if jTruthy v then some v else firstTruthy rest
  | none :: rest => firstTruthy rest

/-- A single-quote character, as Python `repr` wraps strings in. -/
def squote : String := String.singleton (Char.ofNat 39)

/-- An opening curly brace, as Python `repr` wraps dicts in. -/
def lbrace : String := String.singleton (Char.ofNat 123)

/-- A closing curly brace. -/
def rbrace : String := String.singleton (Char.ofNat 125)

mutual
/-- Python `repr` of a JSON-derived value (quote escaping inside strings is
not modelled; no claim exercises it). -/
def pyRepr : Json → String
  | Json.null => "None"
  | Json.bool true => "True"
  | Json.bool false => "False"
  | Json.num n => toString n
  | Json.str s => squote ++ s ++ squote
  | Json.arr xs => "[" ++ String.intercalate ", " (pyReprList xs) ++ "]"
  | Json.obj fs => lbrace ++ String.intercalate ", " (pyReprFields fs) ++ rbrace

/-- `repr` of each element of a JSON array. -/
def pyReprList : List Json → List String
  | [] => []
  | x :: xs => pyRepr x :: pyReprList xs

/-- `repr` of each `key: value` entry of a JSON object. -/
def pyReprFields : List (String × Json) → List String
  | [] => []
  | (k, v) :: fs => (squote ++ k ++ squote ++ ": " ++ pyRepr v) :: pyReprFields fs
end

/-- Python `str` of a JSON-derived value. -/
def pyStr : Json → String
  | Json.str s => s
  | v => pyRepr v

/-! ### Text flattener (`flatten_text`) -/

/-- `ensure_list`: wrap a non-list value into a one-element list. -/
def ensureList : Json → List Json
  | Json.arr xs => xs
  | v => [v]

/-- Tests `candidate.get("type") == "text"`. -/
def isTextType : Option Json → Bool
  | some (Json.str s) => s = "text"
  | _ => false

/-- One candidate's contribution to the flattened text: a plain string, a
`{type: "text", text: ...}` object, or an object with a string `value` field.
A non-string `text` field would make Python's `"\n".join` raise `TypeError`;
such inputs crash the source pipeline and contribute nothing here. -/
def extractCandidate : Json → Option String
  | Json.str s => some s
  | Json.obj fields =>
    if isTextType (jlookup fields "type") && (jlookup fields "text").isSome then
      match jlookup fields "text" with
      | some (Json.str s) => some s
      | _ => none
    else
      match jlookup fields "value" with
      | some (Json.str s) => some s
      | _ => none
  | _ => none

/-- `flatten_text`: top-level `content`, else `message.content`, else
`payload.content`; contributions joined with newlines and stripped.  When the
`message`/`payload` field is not an object its membership test is false (a
string `message` whose text contains `"content"` would crash Python at the
subscript; out of the claims' scope). -/
def flatten_text (event : RawEvent) : String :=
  let candidates : Option (List Json) :=
    match jlookup event "content" with
    | some v => some (ensureList v)
    | none =>
      match jlookup event "message" with
      | some (Json.obj m) =>
        (match jlookup m "content" with
         | some v => some (ensureList v)
         | none =>
           match jlookup event "payload" with
           | some (Json.obj p) =>
             (match jlookup p "content" with
              | some v => some (ensureList v)
              | none => none)
           | _ => none)
      | _ =>
        match jlookup event "payload" with
        | some (Json.obj p) =>
          (match jlookup p "content" with
           | some v => some (ensureList v)
           | none => none)
        | _ => none
  match candidates with
  | none => ""
  | some cs => pyStrip (String.intercalate "\n" (cs.filterMap extractCandidate))

/-! ### Actor resolver (`guess_actor`) -/

/-- Resolves the `name` of a metadata value: `get("name") or get("role") or
"unknown"` on an object, `str(value)` otherwise.  Python would let a
non-string `name`/`role` flow through unconverted; its string rendering is
used here (no claim consults it). -/
def actorName (v : Json) : String :=
  match v with
  | Json.obj fields =>
    match firstTruthy [jlookup fields "name", jlookup fields "role"] with
    | some w => pyStr w
    | none => "unknown"
  | w => pyStr w

/-- `guess_actor`: sender from `participant`/`actor`/`source`, recipient from
`target`/`recipient`, each defaulting to the empty object (which resolves to
"unknown"). -/
def guess_actor (event : RawEvent) : String × String :=
  let actor := (firstTruthy
    [jlookup event "participant", jlookup event "actor", jlookup event "source"]).getD (Json.obj [])
  let target := (firstTruthy
    [jlookup event "target", jlookup event "recipient"]).getD (Json.obj [])
  (actorName actor, actorName target)

/-! ### Payload classifier -/

/-- A classification result: `payload_type` and the default
`(sender, recipient)` direction. -/
abbrev ClassifierResult := String × (String × String)

/-- `classifier_orchestrator_payload`: the three payload patterns, in source
order. -/
def classifier_orchestrator_payload (text : String) : Option ClassifierResult :=
  if pyContains text "OBJECTIVE:" && pyContains text "REQUIREMENTS:" &&
      pyContains text "CONSTRAINTS:" then
    some ("coder_payload", ("orchestrator", "coder"))
  else if pyContains text "SCOPE:" && pyContains text "PASS CRITERIA:" &&
      pyContains text "ARTIFACT REQUESTS:" then
    some ("tester_payload", ("orchestrator", "tester"))
  else if pyStartswith text "ISSUE:" && pyContains text "DECISION OPTIONS:" then
    some ("stuck_payload", ("orchestrator", "stuck"))
  else none

/-- `classifier_agent_response`: the three response patterns, in source order.
The source's first branch also computes a local `status` variable that does
not affect the returned value; it is omitted. -/
def classifier_agent_response (text : String) : Option ClassifierResult :=
  if pyContains text "STATUS:" && pyContains text "DIFF:" && pyContains text "TESTS:" then
    some ("coder_response", ("coder", "orchestrator"))
  else if pyContains text "STATUS:" && pyContains text "VIEWPORTS:" &&
      pyContains text "RECOMMENDATION:" then
    some ("tester_response", ("tester", "orchestrator"))
  else if pyStartswith text "HUMAN DECISION:" && pyContains text "ACTION REQUIRED:" then
    some ("stuck_response", ("stuck", "orchestrator"))
  else none

/-- The ordered `CLASSIFIERS` list. -/
def CLASSIFIERS : List (String → Option ClassifierResult) :=
  [classifier_orchestrator_payload, classifier_agent_response]

/-- First classifier of a list that accepts the text. -/
def classifyWith : List (String → Option ClassifierResult) → String → Option ClassifierResult
  | [], _ => none
  | f :: fs, text =>
    match f text with
    | some result => some result
    | none => classifyWith fs text

/-- `classify_event`: first classifier in `CLASSIFIERS` that matches. -/
def classify_event (text : String) : Option ClassifierResult :=
  classifyWith CLASSIFIERS text

/-! ### Section validator -/

/-- `require_sections`: the required markers absent from the text, in order. -/
def require_sections (text : String) (sections : List String) (name : String) :
    ValidationResult :=
  let missing := sections.filter (fun sec => !pyContains text sec)
  { name := name, status := if missing.isEmpty then "pass" else "fail",
    missing_sections := missing }

/-- The `VALIDATION_RULES` table. -/
def VALIDATION_RULES : List (String × List String) :=
  [ ("coder_payload", ["TODO ID:", "OBJECTIVE:", "REQUIREMENTS:", "CONSTRAINTS:",
      "OUTPUT FORMAT:", "POST-CONDITIONS:", "```diff"]),
    ("coder_response", ["TODO ID:", "STATUS:", "DIFF:", "TESTS:", "SUMMARY:", "FOLLOW-UP:"]),
    ("tester_payload", ["TODO ID:", "SCOPE:", "VIEWPORTS:", "ARTIFACT REQUESTS:",
      "PASS CRITERIA:", "FAILURE HANDOFF:"]),
    ("tester_response", ["TODO ID:", "STATUS:", "VIEWPORTS:", "STEPS:", "ISSUES:",
      "RECOMMENDATION:"]),
    ("stuck_payload", ["ISSUE:", "CONTEXT:", "DECISION OPTIONS:", "NEEDED BY:"]),
    ("stuck_response", ["HUMAN DECISION:", "ACTION REQUIRED:", "FOLLOW-UP:"]) ]

/-- `VALIDATION_RULES.get(payload_type, [])`. -/
def validationSections (payload_type : String) : List String :=
  match VALIDATION_RULES.find? (fun kv => kv.1 = payload_type) with
  | some kv => kv.2
  | none => []

/-! ### Trace builder (`extract_events`)

`parse_timestamp` reads the record's `timestamp`/`created`/`time` field and
falls back to the wall clock; per the spec this is the one sanctioned
nondeterminism, confined to the timestamp field.  It is passed in as an
oracle `parseTs`, so every theorem below holds for every possible timestamp
assignment. -/

/-- The loop body of `extract_events`, recursing over the raw records with the
running `sequence` counter. -/
def extractGo (parseTs : RawEvent → String) :
    List RawEvent → Nat → List EventRecord × List ValidationResult
  | [], _ => ([], [])
  | raw :: rest, sequence =>
    let text := flatten_text raw
    if text = "" then extractGo parseTs rest sequence
    else
      match classify_event text with
      | none => extractGo parseTs rest sequence
      | some (payload_type, inferred_direction) =>
        let guesses := guess_actor raw
        let sender :=
          if guesses.1 ≠ "unknown" ∧ guesses.1 ≠ "assistant" ∧ guesses.1 ≠ "system"
          then guesses.1 else inferred_direction.1
        let recipient := if guesses.2 ≠ "unknown" then guesses.2 else inferred_direction.2
        let record : EventRecord :=
          { sequence := sequence + 1, timestamp := parseTs raw, sender := sender,
            recipient := recipient,
            role := if pyEndswith payload_type "payload" then "delegation" else "completion",
            payload_type := payload_type, content := text }
        let sections := validationSections payload_type
        let recsvals := extractGo parseTs rest (sequence + 1)
        if sections.isEmpty then (record :: recsvals.1, recsvals.2)
        else
          let todo_fragment :=
            match todoIdSearch text.data with
            | some t => t
            | none => payload_type
          (record :: recsvals.1,
           require_sections text sections (payload_type ++ "_" ++ todo_fragment) :: recsvals.2)

/-- `extract_events`: normalized records and validations from the raw
stream. -/
def extract_events (parseTs : RawEvent → String) (raws : List RawEvent) :
    List EventRecord × List ValidationResult :=
  extractGo parseTs raws 0

/-! ### Diff engine (`compare_workflows.py`) -/

/-- Dataclass `EventKey`. -/
structure EventKey where
  payload_type : String
  todo_id : String
  sender : String
  recipient : String
  deriving Repr, DecidableEq, Inhabited

/-- The `todo_id` scan of `extract_event_key`: the first line whose stripped,
lowercased form starts with `"todo id:"` yields the text after the line's
first colon, stripped; `"unknown"` when no line qualifies. -/
def todoIdFromLines : List String → String
  | [] => "unknown"
  | line :: rest =>
    if pyStartswith (pyLower (pyStrip line)) "todo id:" then pyStrip (afterFirstColon line)
    else todoIdFromLines rest

/-- `extract_event_key` of the diff engine. -/
def extract_event_key (event : EventRecord) : EventKey :=
  { payload_type := event.payload_type,
    todo_id := todoIdFromLines (pySplitlines event.content),
    sender := event.sender, recipient := event.recipient }

/-- The `next(i for i, key in enumerate(actual_keys) if not consumed[i] and
...)` scan: index of the first unconsumed actual key agreeing with `bk` on
`payload_type` and `todo_id`. -/
def firstMatch : List EventKey → List Bool → EventKey → Option Nat
  | [], _, _ => none
  | _ :: _, [], _ => none
  | k :: ks, c :: cs, bk =>
    if !c && k.payload_type = bk.payload_type && k.todo_id = bk.todo_id then some 0
    else (firstMatch ks cs bk).map (· + 1)

/-- Python `consumed[idx] = True`. -/
def listSet : List Bool → Nat → List Bool
  | [], _ => []
  | _ :: rest, 0 => true :: rest
  | c :: rest, n + 1 => c :: listSet rest n

/-- The routing-mismatch finding text. -/
def routingMismatchMsg (bk ak : EventKey) : String :=
  "Routing mismatch for " ++ bk.payload_type ++ " " ++ bk.todo_id ++ ": baseline " ++
    bk.sender ++ "->" ++ bk.recipient ++ ", actual " ++ ak.sender ++ "->" ++ ak.recipient

/-- The missing-event finding text. -/
def missingEventMsg (bk : EventKey) : String :=
  "Missing event " ++ bk.payload_type ++ " for " ++ bk.todo_id

/-- The extra-event finding text. -/
def extraEventMsg (key : EventKey) : String :=
  "Unexpected event " ++ key.payload_type ++ " for " ++ key.todo_id ++ " (" ++
    key.sender ++ "->" ++ key.recipient ++ ")"

/-- One iteration of the baseline loop of `compare_events`: consume the first
matching actual key and report a routing mismatch when the directions differ,
or report the event missing. -/
def processOne (actual_keys : List EventKey) (consumed : List Bool) (bk : EventKey) :
    List Bool × List String :=
  match firstMatch actual_keys consumed bk with
  | some idx =>
    let actual_key := actual_keys.getD idx default
    (listSet consumed idx,
     if actual_key.sender ≠ bk.sender ∨ actual_key.recipient ≠ bk.recipient
     then [routingMismatchMsg bk actual_key] else [])
  | none => (consumed, [missingEventMsg bk])

/-- The baseline loop of `compare_events`, threading the consumed flags and
accumulating the `missing` list in report order. -/
def compareLoop (actual_keys : List EventKey) :
    List EventKey → List Bool → List Bool × List String
  | [], consumed => (consumed, [])
  | bk :: bks, consumed =>
    let step := processOne actual_keys consumed bk
    let rest := compareLoop actual_keys bks step.1
    (rest.1, step.2 ++ rest.2)

/-- The trailing loop of `compare_events`: every still-unconsumed actual key
becomes an extra-event finding. -/
def extraFindings : List EventKey → List Bool → List String
  | [], _ => []
  | _ :: _, [] => []
  | k :: ks, c :: cs =>
    if c then extraFindings ks cs else extraEventMsg k :: extraFindings ks cs

/-- `compare_events`: the `(missing, extra)` finding lists. -/
def compare_events (baseline_events actual_events : List EventRecord) :
    List String × List String :=
  let baseline_keys := baseline_events.map extract_event_key
  let actual_keys := actual_events.map extract_event_key
  let loop := compareLoop actual_keys baseline_keys (actual_keys.map (fun _ => false))
  (loop.2, extraFindings actual_keys loop.1)

/-- `collect_validation_failures`: every validation of the actual trace whose
status is not `"pass"`, reported verbatim. -/
def collect_validation_failures (validations : List ValidationResult) : List String :=
  validations.filterMap fun entry =>
    if entry.status ≠ "pass"
    then some (entry.name ++ " missing sections " ++
      String.intercalate ", " entry.missing_sections)
    else none

/-- Python `dict` equality on the status mappings: agreement of the key-value
pairs regardless of order (JSON objects carry no duplicate keys). -/
def pyDictEq (a b : List (String × String)) : Bool :=
  a.all (fun kv => dLookup b kv.1 = some kv.2) && b.all (fun kv => dLookup a kv.1 = some kv.2)

/-- Python `repr` of a status mapping, used inside snapshot findings. -/
def statusDictRepr (d : List (String × String)) : String :=
  lbrace ++ String.intercalate ", "
    (d.map (fun kv => squote ++ kv.1 ++ squote ++ ": " ++ squote ++ kv.2 ++ squote)) ++ rbrace

/-- The positional loop of `compare_state_snapshots`, with `idx` the 0-based
position. -/
def snapshotLoop : List StateSnapshot → List StateSnapshot → Nat → List String
  | [], _, _ => []
  | base :: bs, [], idx =>
    ("Missing state snapshot #" ++ toString (idx + 1) ++ " (phase " ++ base.phase ++
      ") in actual run.") :: snapshotLoop bs [] (idx + 1)
  | base :: bs, act :: rest, idx =>
    (if base.phase ≠ act.phase
     then ["Snapshot #" ++ toString (idx + 1) ++ " phase mismatch: baseline " ++
       base.phase ++ " vs actual " ++ act.phase]
     else []) ++
    (if !pyDictEq base.todo_statuses act.todo_statuses
     then ["Snapshot #" ++ toString (idx + 1) ++ " todo statuses differ: baseline " ++
       statusDictRepr base.todo_statuses ++ " vs actual " ++ statusDictRepr act.todo_statuses]
     else []) ++
    snapshotLoop bs rest (idx + 1)

/-- `compare_state_snapshots`: positional comparison plus the surplus-count
summary finding. -/
def compare_state_snapshots (baseline actual : List StateSnapshot) : List String :=
  let issues := snapshotLoop baseline actual 0
  if actual.length > baseline.length then
    issues ++ ["Actual run contains " ++ toString (actual.length - baseline.length) ++
      " extra state snapshots."]
  else issues

/-- The normalized trace container consumed by the diff engine. -/
structure NormalizedTrace where
  session_id : String
  generated_at : String
  events : List EventRecord
  state_snapshots : List StateSnapshot
  validations : List ValidationResult
  deriving Repr, DecidableEq, Inhabited

/-- The four finding groups computed by the diff engine's `main`:
missing/mismatched events, extra events, validation issues, snapshot
differences. -/
def diffFindings (baseline actual : NormalizedTrace) :
    List String × List String × List String × List String :=
  let events := compare_events baseline.events actual.events
  (events.1, events.2, collect_validation_failures actual.validations,
   compare_state_snapshots baseline.state_snapshots actual.state_snapshots)

/-! ### Concrete happy-path run (testable property 6 of the spec) -/

/-- The four events of the two-item happy-path scenario, fed directly to the
reconstructor. -/
def happyEvents : List EventRecord :=
  [ { sequence := 1, timestamp := "t1", sender := "orchestrator", recipient := "coder",
      role := "delegation", payload_type := "coder_payload",
      content := "TODO ID: todo-001\nOBJECTIVE: build" },
    { sequence := 2, timestamp := "t2", sender := "coder", recipient := "orchestrator",
      role := "completion", payload_type := "coder_response",
      content := "TODO ID: todo-001\nSTATUS: success" },
    { sequence := 3, timestamp := "t3", sender := "orchestrator", recipient := "tester",
      role := "delegation", payload_type := "tester_payload",
      content := "TODO ID: todo-001\nSCOPE: verify" },
    { sequence := 4, timestamp := "t4", sender := "tester", recipient := "orchestrator",
      role := "completion", payload_type := "tester_response",
      content := "TODO ID: todo-001\nSTATUS: pass" } ]

/-! ### Spec-side model for the classifier refinement claim -/

/-- Modelled from the spec's words for the refinement claim about
`classify_event`: the fixed ordered list of pattern predicates with their
results, in the priority order coder_payload, tester_payload, stuck_payload,
coder_response, tester_response, stuck_response. -/
def classifierPatternList : List ((String → Bool) × ClassifierResult) :=
  [ (fun t => pyContains t "OBJECTIVE:" && pyContains t "REQUIREMENTS:" &&
      pyContains t "CONSTRAINTS:", ("coder_payload", ("orchestrator", "coder"))),
    (fun t => pyContains t "SCOPE:" && pyContains t "PASS CRITERIA:" &&
      pyContains t "ARTIFACT REQUESTS:", ("tester_payload", ("orchestrator", "tester"))),
    (fun t => pyStartswith t "ISSUE:" && pyContains t "DECISION OPTIONS:",
      ("stuck_payload", ("orchestrator", "stuck"))),
    (fun t => pyContains t "STATUS:" && pyContains t "DIFF:" && pyContains t "TESTS:",
      ("coder_response", ("coder", "orchestrator"))),
    (fun t => pyContains t "STATUS:" && pyContains t "VIEWPORTS:" &&
      pyContains t "RECOMMENDATION:", ("tester_response", ("tester", "orchestrator"))),
    (fun t => pyStartswith t "HUMAN DECISION:" && pyContains t "ACTION REQUIRED:",
      ("stuck_response", ("stuck", "orchestrator"))) ]

/-- Modelled from the spec's words: first-match priority dispatch over an
ordered predicate list. -/
def firstMatchingPattern :
    List ((String → Bool) × ClassifierResult) → String → Option ClassifierResult
  | [], _ => none
  | p :: ps, text => if p.1 text then some p.2 else firstMatchingPattern ps text

/-- When no predicate of the list accepts the text, first-match dispatch
yields nothing. -/
theorem firstMatchingPattern_eq_none (ps : List ((String → Bool) × ClassifierResult))
    (text : String) (h : ∀ p ∈ ps, p.1 text = false) :
    firstMatchingPattern ps text = none := by
  induction ps with
  | nil => rfl
  | cons p ps ih =>
    simp only [firstMatchingPattern, h p (List.mem_cons_self p ps), Bool.false_eq_true,
      if_false]
    exact ih fun q hq => h q (List.mem_cons_of_mem p hq)

/-! ### Claim theorems -/

/-- C1: for the happy-path event sequence coder_payload(todo-001),
coder_response(todo-001, STATUS: success), tester_payload(todo-001),
tester_response(todo-001, STATUS: pass), `build_state_snapshots` emits
exactly five snapshots with phases bootstrap, dispatch, verifying, verifying,
dispatch in order, and the last snapshot maps todo-001 to "complete". -/
theorem happy_path_snapshot_phases :
    (build_state_snapshots happyEvents).map StateSnapshot.phase =
      ["bootstrap", "dispatch", "verifying", "verifying", "dispatch"] ∧
    dLookup ((build_state_snapshots happyEvents).getLastD default).todo_statuses "todo-001" =
      some "complete" := by
  constructor <;> decide

/-- C6: `classify_event` is first-match priority dispatch over the fixed
ordered predicate list coder_payload, tester_payload, stuck_payload,
coder_response, tester_response, stuck_response; a text satisfying two
predicates classifies as the earlier one, and a text satisfying none yields
no classification. -/
theorem classify_event_first_match (text : String) :
    classify_event text = firstMatchingPattern classifierPatternList text ∧
    ((∀ p ∈ classifierPatternList, p.1 text = false) → classify_event text = none) := by
  have key : classify_event text = firstMatchingPattern classifierPatternList text := by
    simp only [classify_event, classifyWith, CLASSIFIERS, classifier_orchestrator_payload,
      classifier_agent_response, firstMatchingPattern, classifierPatternList]
    repeat' split <;> simp_all
  exact ⟨key, fun h => key.trans (firstMatchingPattern_eq_none _ _ h)⟩

/-- Closed witness for C6: a text holding the markers of both coder_payload
and coder_response classifies as coder_payload (the earlier predicate), and a
markerless text classifies as nothing. -/
theorem classify_event_first_match_app :
    classify_event "OBJECTIVE: x REQUIREMENTS: y CONSTRAINTS: z STATUS: s DIFF: d TESTS: t" =
      some ("coder_payload", ("orchestrator", "coder")) ∧
    classify_event "plain chatter" = none :=
  ⟨(classify_event_first_match
      "OBJECTIVE: x REQUIREMENTS: y CONSTRAINTS: z STATUS: s DIFF: d TESTS: t").1.trans
      (by decide),
   (classify_event_first_match "plain chatter").2 (by decide)⟩

/-- Setting a key makes it look up to the new value. -/
theorem dLookup_dictSet_self (d : List (String × String)) (k v : String) :
    dLookup (dictSet d k v) k = some v := by
  induction d with
  | nil => simp [dictSet, dLookup]
  | cons kv rest ih =>
    obtain ⟨k', v'⟩ := kv
    by_cases h : k' = k <;> simp [dictSet, dLookup, h, ih]

/-- C4: a coder_response whose STATUS token is not "success" (including the
empty token left by a missing STATUS line) appends a snapshot with phase
"escalating" and the item's status "blocked"; a subsequent stuck_response for
the same item appends a snapshot with phase "planning" and the status reset
to "pending". -/
theorem coder_failure_then_stuck_reset (st : ReconState) (e f : EventRecord) (t : String)
    (ht : todoIdSearch e.content.data = some t)
    (he : e.payload_type = "coder_response")
    (hs : statusTokenOf e.content ≠ "success")
    (hu : todoIdSearch f.content.data = some t)
    (hf : f.payload_type = "stuck_response") :
    (stepEvent st e).phase = "escalating" ∧
    dLookup (stepEvent st e).todo_status t = some "blocked" ∧
    (∃ snap, (stepEvent st e).snapshots = st.snapshots ++ [snap] ∧
      snap.phase = "escalating" ∧ dLookup snap.todo_statuses t = some "blocked") ∧
    (stepEvent (stepEvent st e) f).phase = "planning" ∧
    dLookup (stepEvent (stepEvent st e) f).todo_status t = some "pending" ∧
    (∃ snap, (stepEvent (stepEvent st e) f).snapshots = (stepEvent st e).snapshots ++ [snap] ∧
      snap.phase = "planning" ∧ dLookup snap.todo_statuses t = some "pending") := by
  have h1 : stepEvent st e =
      appendSnapshot
        { st with phase := "escalating", todo_status := dictSet st.todo_status t "blocked" }
        ("Coder reported failure for " ++ t ++ ".") e.timestamp := by
    simp [stepEvent, ht, he, hs]
  have h2 : ∀ st' : ReconState, stepEvent st' f =
      appendSnapshot
        { st' with phase := "planning", todo_status := dictSet st'.todo_status t "pending" }
        ("Human guidance received for " ++ t ++ ".") f.timestamp := by
    intro st'
    simp [stepEvent, hu, hf]
  refine ⟨?_, ?_, ?_, ?_, ?_, ?_⟩
  · rw [h1]; rfl
  · rw [h1]; exact dLookup_dictSet_self _ _ _
  · rw [h1]
    exact ⟨_, rfl, rfl, dLookup_dictSet_self _ _ _⟩
  · rw [h2]; rfl
  · rw [h2]; exact dLookup_dictSet_self _ _ _
  · rw [h1, h2]
    exact ⟨_, rfl, rfl, dLookup_dictSet_self _ _ _⟩

/-- Closed witness for C4: a coder_response for todo-002 with no STATUS line
(empty token) blocks the item and escalates, and the following stuck_response
resets it to pending in phase planning. -/
theorem coder_failure_then_stuck_reset_app :
    (stepEvent reconInit
      { sequence := 1, timestamp := "t1", sender := "coder", recipient := "orchestrator",
        role := "completion", payload_type := "coder_response",
        content := "TODO ID: todo-002\nDIFF: none" }).phase = "escalating" ∧
    dLookup (stepEvent reconInit
      { sequence := 1, timestamp := "t1", sender := "coder", recipient := "orchestrator",
        role := "completion", payload_type := "coder_response",
        content := "TODO ID: todo-002\nDIFF: none" }).todo_status "todo-002" =
      some "blocked" ∧
    (stepEvent (stepEvent reconInit
      { sequence := 1, timestamp := "t1", sender := "coder", recipient := "orchestrator",
        role := "completion", payload_type := "coder_response",
        content := "TODO ID: todo-002\nDIFF: none" })
      { sequence := 2, timestamp := "t2", sender := "stuck", recipient := "orchestrator",
        role := "completion", payload_type := "stuck_response",
        content := "TODO ID: todo-002\nHUMAN DECISION: retry" }).phase = "planning" ∧
    dLookup (stepEvent (stepEvent reconInit
      { sequence := 1, timestamp := "t1", sender := "coder", recipient := "orchestrator",
        role := "completion", payload_type := "coder_response",
        content := "TODO ID: todo-002\nDIFF: none" })
      { sequence := 2, timestamp := "t2", sender := "stuck", recipient := "orchestrator",
        role := "completion", payload_type := "stuck_response",
        content := "TODO ID: todo-002\nHUMAN DECISION: retry" }).todo_status "todo-002" =
      some "pending" := by
  have h := coder_failure_then_stuck_reset reconInit
    { sequence := 1, timestamp := "t1", sender := "coder", recipient := "orchestrator",
      role := "completion", payload_type := "coder_response",
      content := "TODO ID: todo-002\nDIFF: none" }
    { sequence := 2, timestamp := "t2", sender := "stuck", recipient := "orchestrator",
      role := "completion", payload_type := "stuck_response",
      content := "TODO ID: todo-002\nHUMAN DECISION: retry" }
    "todo-002" (by decide) (by decide) (by decide) (by decide) (by decide)
  exact ⟨h.1, h.2.1, h.2.2.2.1, h.2.2.2.2.1⟩

/-! ### Key monotonicity of the reconstructor -/

/-- Every key of `a` is a key of `b`. -/
def keysSubset (a b : List (String × String)) : Prop :=
  ∀ k, dLookup a k ≠ none → dLookup b k ≠ none

/-- Key-set inclusion is reflexive. -/
theorem keysSubset_refl (a : List (String × String)) : keysSubset a a :=
  fun _ h => h

/-- Key-set inclusion is transitive. -/
theorem keysSubset_trans {a b c : List (String × String)}
    (h1 : keysSubset a b) (h2 : keysSubset b c) : keysSubset a c :=
  fun k h => h2 k (h1 k h)

/-- Lookup after `dictSet`. -/
theorem dLookup_dictSet (d : List (String × String)) (k v k' : String) :
    dLookup (dictSet d k v) k' = if k = k' then some v else dLookup d k' := by
  induction d with
  | nil => simp [dictSet, dLookup]
  | cons kv rest ih =>
    obtain ⟨ek, ev⟩ := kv
    by_cases h : ek = k
    · subst h
      by_cases h2 : ek = k' <;> simp [dictSet, dLookup, h2]
    · by_cases h2 : ek = k'
      · subst h2
        have hne : ¬(k = ek) := fun hh => h hh.symm
        simp [dictSet, dLookup, h, hne]
      · simp [dictSet, dLookup, h, h2, ih]

/-- `dictSet` never removes a key. -/
theorem keysSubset_dictSet (d : List (String × String)) (k v : String) :
    keysSubset d (dictSet d k v) := by
  intro k' h
  rw [dLookup_dictSet]
  split
  · simp
  · exact h

/-- The reconstructor invariant: already-emitted snapshots have chained
key-set inclusion, and each is dominated by the live accumulator. -/
def snapsOk (st : ReconState) : Prop :=
  st.snapshots.Pairwise (fun a b => keysSubset a.todo_statuses b.todo_statuses) ∧
  ∀ s ∈ st.snapshots, keysSubset s.todo_statuses st.todo_status

/-- Replacing the accumulator with a key-superset (and any phase and active
item) preserves the invariant. -/
theorem snapsOk_mk {snaps : List StateSnapshot} {d d' : List (String × String)}
    {a a' : Option String} {p p' : String}
    (h : snapsOk ⟨d, snaps, a, p⟩) (hd : keysSubset d d') :
    snapsOk ⟨d', snaps, a', p'⟩ :=
  ⟨h.1, fun s hs => keysSubset_trans (h.2 s hs) hd⟩

/-- Appending a snapshot of the current state preserves the invariant. -/
theorem snapsOk_append (st : ReconState) (note ts : String) (h : snapsOk st) :
    snapsOk (appendSnapshot st note ts) := by
  constructor
  · simp only [appendSnapshot, List.pairwise_append]
    refine ⟨h.1, List.pairwise_singleton _ _, ?_⟩
    intro a ha b hb
    simp only [List.mem_singleton] at hb
    subst hb
    exact h.2 a ha
  · intro s hs
    simp only [appendSnapshot, List.mem_append, List.mem_singleton] at hs
    rcases hs with hs | hs
    · exact h.2 s hs
    · subst hs
      exact keysSubset_refl _

/-- One reconstructor step preserves the invariant. -/
theorem stepEvent_snapsOk (st : ReconState) (e : EventRecord) (h : snapsOk st) :
    snapsOk (stepEvent st e) := by
  obtain ⟨d, snaps, a, p⟩ := st
  unfold stepEvent
  rcases todoIdSearch e.content.data with _ | t
  · exact h
  · simp only
    split_ifs <;>
      first
        | exact h
        | exact snapsOk_append _ _ _ (snapsOk_mk h (keysSubset_dictSet _ _ _))
        | exact snapsOk_append _ _ _ (snapsOk_mk h (keysSubset_refl _))

/-- The invariant survives the whole event loop. -/
theorem foldl_snapsOk (events : List EventRecord) (st : ReconState) (h : snapsOk st) :
    snapsOk (events.foldl stepEvent st) := by
  induction events generalizing st with
  | nil => exact h
  | cons e es ih => exact ih _ (stepEvent_snapsOk _ _ h)

/-- The pre-loop state satisfies the invariant. -/
theorem buildStart_snapsOk (events : List EventRecord) : snapsOk (buildStart events) := by
  cases events with
  | nil => exact ⟨List.Pairwise.nil, fun s hs => absurd hs (List.not_mem_nil s)⟩
  | cons e es =>
    exact snapsOk_append reconInit _ _
      ⟨List.Pairwise.nil, fun s hs => absurd hs (List.not_mem_nil s)⟩

/-- A reconstructor step only ever appends to the snapshot list. -/
theorem stepEvent_snapshots_extend (st : ReconState) (e : EventRecord) :
    ∃ tail, (stepEvent st e).snapshots = st.snapshots ++ tail := by
  obtain ⟨d, snaps, a, p⟩ := st
  unfold stepEvent
  rcases todoIdSearch e.content.data with _ | t
  · exact ⟨[], (List.append_nil _).symm⟩
  · simp only
    split_ifs <;>
      first
        | exact ⟨[], (List.append_nil _).symm⟩
        | exact ⟨_, rfl⟩

/-- The event loop only ever appends to the snapshot list. -/
theorem foldl_snapshots_extend (events : List EventRecord) (st : ReconState) :
    ∃ tail, (events.foldl stepEvent st).snapshots = st.snapshots ++ tail := by
  induction events generalizing st with
  | nil => exact ⟨[], (List.append_nil _).symm⟩
  | cons e es ih =>
    obtain ⟨t2, h2⟩ := ih (stepEvent st e)
    obtain ⟨t1, h1⟩ := stepEvent_snapshots_extend st e
    exact ⟨t1 ++ t2, by simp [List.foldl_cons, h2, h1]⟩

/-- C5: in one reconstructor run, every item identifier present in an earlier
snapshot's status map is still present in every later snapshot's map, and
already-emitted snapshots are frozen — processing further events only appends
to the snapshot list, never altering the earlier entries. -/
theorem snapshot_statuses_monotone_frozen (events more : List EventRecord) (i j : Nat)
    (hij : i < j) (hj : j < (build_state_snapshots events).length) (k : String)
    (hk : dLookup ((build_state_snapshots events).get
      ⟨i, Nat.lt_trans hij hj⟩).todo_statuses k ≠ none) :
    dLookup ((build_state_snapshots events).get ⟨j, hj⟩).todo_statuses k ≠ none ∧
    (∃ rest, build_state_snapshots (events ++ more) = build_state_snapshots events ++ rest) := by
  constructor
  · have hOk := foldl_snapsOk events (buildStart events) (buildStart_snapsOk events)
    have hp := hOk.1
    rw [List.pairwise_iff_get] at hp
    exact hp ⟨i, Nat.lt_trans hij hj⟩ ⟨j, hj⟩ hij k hk
  · cases events with
    | nil =>
      exact ⟨build_state_snapshots more, by simp [build_state_snapshots, buildStart, reconInit]⟩
    | cons e es =>
      obtain ⟨tail, htail⟩ :=
        foldl_snapshots_extend more ((e :: es).foldl stepEvent (buildStart (e :: es)))
      refine ⟨tail, ?_⟩
      have hbs : buildStart ((e :: es) ++ more) = buildStart (e :: es) := rfl
      calc build_state_snapshots ((e :: es) ++ more)
          = (more.foldl stepEvent ((e :: es).foldl stepEvent (buildStart (e :: es)))).snapshots := by
            rw [build_state_snapshots, hbs, List.foldl_append]
        _ = build_state_snapshots (e :: es) ++ tail := htail

/-- Closed witness for C5: in the happy-path run, todo-001 present in
snapshot 1 is still present in snapshot 4, and replaying the same events with
an empty continuation leaves the snapshot list an unchanged prefix. -/
theorem snapshot_statuses_monotone_frozen_app :
    dLookup ((build_state_snapshots happyEvents).get ⟨4, by decide⟩).todo_statuses
      "todo-001" ≠ none ∧
    (∃ rest, build_state_snapshots (happyEvents ++ []) =
      build_state_snapshots happyEvents ++ rest) :=
  snapshot_statuses_monotone_frozen happyEvents [] 1 4 (by decide) (by decide)
    "todo-001" (by decide)


/-! ### Persistence of the active item in the reconstructor -/

/-- The bootstrap snapshot on a stream led by `e`. -/
def bootstrapSnapshot (e : EventRecord) : StateSnapshot :=
  { timestamp := e.timestamp, phase := "bootstrap", active_todo := none,
    todo_statuses := [], note := "Captured session metadata from raw log." }

/-- The invariant behind the active-item persistence: once a snapshot carries
a non-null `active_todo`, all later snapshots and the live state do. -/
def activeOk (st : ReconState) : Prop :=
  st.snapshots.Pairwise (fun a b => a.active_todo ≠ none → b.active_todo ≠ none) ∧
  ∀ s ∈ st.snapshots, s.active_todo ≠ none → st.active_todo ≠ none

/-- Changing the state components without nulling the active item preserves
the invariant. -/
theorem activeOk_mk {snaps : List StateSnapshot} {d d' : List (String × String)}
    {a a' : Option String} {p p' : String}
    (h : activeOk ⟨d, snaps, a, p⟩) (ha : a ≠ none → a' ≠ none) :
    activeOk ⟨d', snaps, a', p'⟩ :=
  ⟨h.1, fun s hs hne => ha (h.2 s hs hne)⟩

/-- Appending a snapshot of the current state preserves the invariant. -/
theorem activeOk_append (st : ReconState) (note ts : String) (h : activeOk st) :
    activeOk (appendSnapshot st note ts) := by
  constructor
  · simp only [appendSnapshot, List.pairwise_append]
    refine ⟨h.1, List.pairwise_singleton _ _, ?_⟩
    intro a ha b hb
    simp only [List.mem_singleton] at hb
    subst hb
    exact h.2 a ha
  · intro s hs
    simp only [appendSnapshot, List.mem_append, List.mem_singleton] at hs
    rcases hs with hs | hs
    · exact h.2 s hs
    · subst hs
      exact id

/-- One reconstructor step preserves the active-item invariant. -/
theorem stepEvent_activeOk (st : ReconState) (e : EventRecord) (h : activeOk st) :
    activeOk (stepEvent st e) := by
  obtain ⟨d, snaps, a, p⟩ := st
  unfold stepEvent
  rcases todoIdSearch e.content.data with _ | t
  · exact h
  · simp only
    split_ifs <;>
      first
        | exact h
        | exact activeOk_append _ _ _ (activeOk_mk h (fun _ => Option.some_ne_none _))
        | exact activeOk_append _ _ _ (activeOk_mk h id)

/-- The active-item invariant survives the whole event loop. -/
theorem foldl_activeOk (events : List EventRecord) (st : ReconState) (h : activeOk st) :
    activeOk (events.foldl stepEvent st) := by
  induction events generalizing st with
  | nil => exact h
  | cons e es ih => exact ih _ (stepEvent_activeOk _ _ h)

/-- The pre-loop state satisfies the active-item invariant. -/
theorem buildStart_activeOk (events : List EventRecord) : activeOk (buildStart events) := by
  cases events with
  | nil => exact ⟨List.Pairwise.nil, fun s hs => absurd hs (List.not_mem_nil s)⟩
  | cons e es =>
    exact activeOk_append reconInit _ _
      ⟨List.Pairwise.nil, fun s hs => absurd hs (List.not_mem_nil s)⟩

/-- Counterexample to C9: in the happy-path run the tester pass completes
todo-001, yet the final snapshot still carries `active_todo = todo-001` —
`build_state_snapshots` never resets the active item to null after a
dispatch ends. -/
theorem active_todo_not_cleared_cex :
    ((build_state_snapshots happyEvents).getLastD default).active_todo = some "todo-001" ∧
    dLookup ((build_state_snapshots happyEvents).getLastD default).todo_statuses "todo-001" =
      some "complete" := by
  constructor <;> decide

/-- C9 as amended: the bootstrap snapshot carries a null `active_todo`; a step
sets the active item exactly on a coder_payload dispatch and otherwise leaves
it unchanged (never resetting it to null); hence once a snapshot carries a
non-null active item, every later snapshot of the run does too. -/
theorem active_todo_amended (events : List EventRecord) (e : EventRecord)
    (st : ReconState) (i j : Nat) (hj : j < (build_state_snapshots events).length)
    (hij : i ≤ j)
    (hi : ((build_state_snapshots events).get
      ⟨i, Nat.lt_of_le_of_lt hij hj⟩).active_todo ≠ none) :
    (∃ rest, build_state_snapshots (e :: events) = bootstrapSnapshot e :: rest) ∧
    ((stepEvent st e).active_todo =
      match todoIdSearch e.content.data with
      | some t => if e.payload_type = "coder_payload" then some t else st.active_todo
      | none => st.active_todo) ∧
    ((build_state_snapshots events).get ⟨j, hj⟩).active_todo ≠ none := by
  refine ⟨?_, ?_, ?_⟩
  · obtain ⟨tail, htail⟩ := foldl_snapshots_extend (e :: events) (buildStart (e :: events))
    exact ⟨tail, htail⟩
  · obtain ⟨d, snaps, a, p⟩ := st
    unfold stepEvent
    rcases todoIdSearch e.content.data with _ | t
    · rfl
    · simp only
      split_ifs <;> simp_all [appendSnapshot]
  · rcases Nat.lt_or_ge i j with hlt | hge
    · have hOk := foldl_activeOk events (buildStart events) (buildStart_activeOk events)
      have hp := hOk.1
      rw [List.pairwise_iff_get] at hp
      exact hp ⟨i, Nat.lt_of_le_of_lt hij hj⟩ ⟨j, hj⟩ hlt hi
    · have hij' : i = j := Nat.le_antisymm hij hge
      subst hij'
      exact hi

/-- Closed witness for C9's amended statement: instantiated on the happy-path
run with a stuck_response step, whose processing leaves the active item
untouched. -/
theorem active_todo_amended_app :
    (∃ rest, build_state_snapshots
      ({ sequence := 9, timestamp := "t9", sender := "stuck", recipient := "orchestrator",
         role := "completion", payload_type := "stuck_response",
         content := "TODO ID: todo-001\nHUMAN DECISION: retry" } :: happyEvents) =
      bootstrapSnapshot
        { sequence := 9, timestamp := "t9", sender := "stuck", recipient := "orchestrator",
          role := "completion", payload_type := "stuck_response",
          content := "TODO ID: todo-001\nHUMAN DECISION: retry" } :: rest) ∧
    ((stepEvent reconInit
      { sequence := 9, timestamp := "t9", sender := "stuck", recipient := "orchestrator",
        role := "completion", payload_type := "stuck_response",
        content := "TODO ID: todo-001\nHUMAN DECISION: retry" }).active_todo =
      match todoIdSearch "TODO ID: todo-001\nHUMAN DECISION: retry".data with
      | some t => if ("stuck_response" : String) = "coder_payload" then some t
                  else reconInit.active_todo
      | none => reconInit.active_todo) ∧
    ((build_state_snapshots happyEvents).get ⟨4, by decide⟩).active_todo ≠ none :=
  active_todo_amended happyEvents
    { sequence := 9, timestamp := "t9", sender := "stuck", recipient := "orchestrator",
      role := "completion", payload_type := "stuck_response",
      content := "TODO ID: todo-001\nHUMAN DECISION: retry" }
    reconInit 1 4 (by decide) (by decide) (by decide)

/-! ### Role tags of pipeline events -/

/-- A raw log record that classifies as a tester_response. -/
def testerResponseRaw : RawEvent :=
  [("content",
    Json.str "TODO ID: todo-003\nSTATUS: pass\nVIEWPORTS: desktop\nRECOMMENDATION: ship")]

/-- Counterexample to C7: the normalization pipeline tags every non-payload
event with role "completion", so a tester_response event does not carry role
"verification". -/
theorem role_tag_cex :
    ∃ r ∈ (extract_events (fun _ => "2025-01-01T00:00:00+00:00") [testerResponseRaw]).1,
      r.payload_type = "tester_response" ∧ r.role ≠ "verification" ∧ r.role = "completion" := by
  decide

/-- C7 as amended: every EventRecord produced by `extract_events` has role
"delegation" exactly when its payload_type ends in "payload", and role
"completion" otherwise — the varied tags verification/escalation/resolution
appear only in the hardcoded simulation generator's output, never in the
normalization pipeline's. -/
theorem event_role_amended (parseTs : RawEvent → String) (raws : List RawEvent)
    (seq : Nat) (r : EventRecord) (hr : r ∈ (extractGo parseTs raws seq).1) :
    r.role = if pyEndswith r.payload_type "payload" then "delegation" else "completion" := by
  induction raws generalizing seq with
  | nil => simp [extractGo] at hr
  | cons raw rest ih =>
    rw [extractGo] at hr
    by_cases htext : flatten_text raw = ""
    · rw [if_pos htext] at hr
      exact ih _ hr
    · rw [if_neg htext] at hr
      rcases hcl : classify_event (flatten_text raw) with _ | ⟨pt, dir⟩
      · rw [hcl] at hr
        exact ih _ hr
      · rw [hcl] at hr
        simp only at hr
        by_cases hsec : (validationSections pt).isEmpty
        · rw [if_pos hsec] at hr
          rcases List.mem_cons.mp hr with hr | hr
          · subst hr; rfl
          · exact ih _ hr
        · rw [if_neg hsec] at hr
          rcases List.mem_cons.mp hr with hr | hr
          · subst hr; rfl
          · exact ih _ hr

/-- Closed witness for C7's amended statement: the tester_response record of
the concrete raw stream carries role "completion". -/
theorem event_role_amended_app :
    ((extract_events (fun _ => "ts") [testerResponseRaw]).1.getD 0 default).role =
      (if pyEndswith ((extract_events (fun _ => "ts")
        [testerResponseRaw]).1.getD 0 default).payload_type "payload"
       then "delegation" else "completion") :=
  event_role_amended (fun _ => "ts") [testerResponseRaw] 0 _ (by decide)

/-! ### The diff engine's item-identifier scan -/

/-- Decides whether a line triggers the `todo id:` scan of
`extract_event_key`. -/
def isTodoLine (line : String) : Bool :=
  pyStartswith (pyLower (pyStrip line)) "todo id:"

/-- When no line qualifies, the scan yields the sentinel. -/
theorem todoIdFromLines_no_match (lines : List String)
    (h : ∀ l ∈ lines, isTodoLine l = false) : todoIdFromLines lines = "unknown" := by
  induction lines with
  | nil => rfl
  | cons l ls ih =>
    have hl := h l (List.mem_cons_self l ls)
    simp only [todoIdFromLines, isTodoLine] at hl ⊢
    rw [hl]
    simp only [Bool.false_eq_true, if_false]
    exact ih fun l' hl' => h l' (List.mem_cons_of_mem l hl')

/-- The scan takes the first qualifying line and returns the text after its
first colon, stripped. -/
theorem todoIdFromLines_first (pre : List String) (l : String) (post : List String)
    (hpre : ∀ l' ∈ pre, isTodoLine l' = false) (hl : isTodoLine l = true) :
    todoIdFromLines (pre ++ l :: post) = pyStrip (afterFirstColon l) := by
  induction pre with
  | nil =>
    simp only [todoIdFromLines, List.nil_append, isTodoLine] at hl ⊢
    rw [hl]
    simp
  | cons p ps ih =>
    have hp := hpre p (List.mem_cons_self p ps)
    simp only [todoIdFromLines, List.cons_append, isTodoLine] at hp ⊢
    rw [hp]
    simp only [Bool.false_eq_true, if_false]
    exact ih fun l' hl' => hpre l' (List.mem_cons_of_mem p hl')

/-- An event whose TODO ID line carries a token that is not of the form
todo-(digits). -/
def bananaEvent : EventRecord :=
  { sequence := 1, timestamp := "t1", sender := "orchestrator", recipient := "coder",
    role := "delegation", payload_type := "coder_payload",
    content := "TODO ID: banana" }

/-- Counterexample to C8: the diff engine's `extract_event_key` performs no
validation of the token against the todo-(digits) pattern — a TODO ID line
carrying "banana" yields todo_id "banana", not the sentinel "unknown"
(the pattern `TODO ID:\s*(todo-\d+)`, which finds no match here, is used only
in the ingest context). -/
theorem event_key_no_pattern_cex :
    (extract_event_key bananaEvent).todo_id = "banana" ∧
    todoIdSearch bananaEvent.content.data = none ∧
    (extract_event_key bananaEvent).todo_id ≠ "unknown" := by
  refine ⟨by decide, by decide, by decide⟩

/-- C8 as amended: in the diff context, todo_id is taken from the first line
whose stripped, lowercased form starts with "todo id:" as the text after the
line's first colon, stripped, with no validation of its shape; the sentinel
"unknown" arises when no line qualifies. -/
theorem extract_event_key_amended (e : EventRecord) :
    ((∀ l ∈ pySplitlines e.content, isTodoLine l = false) →
      (extract_event_key e).todo_id = "unknown") ∧
    (∀ pre l post, pySplitlines e.content = pre ++ l :: post →
      (∀ l' ∈ pre, isTodoLine l' = false) → isTodoLine l = true →
      (extract_event_key e).todo_id = pyStrip (afterFirstColon l)) := by
  constructor
  · intro h
    simp only [extract_event_key]
    exact todoIdFromLines_no_match _ h
  · intro pre l post hsplit hpre hl
    simp only [extract_event_key, hsplit]
    exact todoIdFromLines_first pre l post hpre hl

/-- Closed witness for C8's amended statement: the first qualifying line of a
three-line content wins, its token taken verbatim after the colon. -/
theorem extract_event_key_amended_app :
    (extract_event_key
      { sequence := 1, timestamp := "t1", sender := "orchestrator", recipient := "coder",
        role := "delegation", payload_type := "coder_payload",
        content := "intro line\n  TODO ID: banana  \nTODO ID: todo-007" }).todo_id =
      pyStrip (afterFirstColon "  TODO ID: banana  ") :=
  (extract_event_key_amended
    { sequence := 1, timestamp := "t1", sender := "orchestrator", recipient := "coder",
      role := "delegation", payload_type := "coder_payload",
      content := "intro line\n  TODO ID: banana  \nTODO ID: todo-007" }).2
    ["intro line"] "  TODO ID: banana  " ["TODO ID: todo-007"]
    (by decide) (by decide) (by decide)

/-! ### Precedence of the top-level content shape in the flattener -/

/-- A raw event whose top-level content is a bare number while its
`message.content` holds classifiable text. -/
def numericContentRaw : RawEvent :=
  [("content", Json.num 5),
   ("message", Json.obj [("content",
     Json.str "TODO ID: todo-009\nSTATUS: ok\nDIFF: d\nTESTS: t")])]

/-- A raw event whose top-level content is an object with neither a
`type == "text"` text field nor a string `value` field, while its
`message.content` holds classifiable text. -/
def opaqueContentRaw : RawEvent :=
  [("content", Json.obj [("kind", Json.str "blob")]),
   ("message", Json.obj [("content",
     Json.str "TODO ID: todo-009\nSTATUS: ok\nDIFF: d\nTESTS: t")])]

/-- C10: when a raw event has a top-level `content` key, `flatten_text` never
consults `message.content` or `payload.content` — the result depends only on
the `content` value; concretely, a numeric content and an unextractable
object content each flatten to the empty string and are skipped by
`extract_events`, even though the very text sitting in `message.content`
would flatten to non-empty text on its own. -/
theorem flatten_text_top_content (e1 e2 : RawEvent) (v : Json)
    (h1 : jlookup e1 "content" = some v) (h2 : jlookup e2 "content" = some v) :
    flatten_text e1 = flatten_text e2 ∧
    flatten_text numericContentRaw = "" ∧
    extract_events (fun _ => "ts") [numericContentRaw] = ([], []) ∧
    flatten_text opaqueContentRaw = "" ∧
    extract_events (fun _ => "ts") [opaqueContentRaw] = ([], []) ∧
    flatten_text [("message", Json.obj [("content",
      Json.str "TODO ID: todo-009\nSTATUS: ok\nDIFF: d\nTESTS: t")])] ≠ "" := by
  refine ⟨?_, by decide, by decide, by decide, by decide, by decide⟩
  simp only [flatten_text, h1, h2]

/-- Closed witness for C10, instantiated at the numeric-content event and a
stripped copy carrying the same top-level content value. -/
theorem flatten_text_top_content_app :
    flatten_text numericContentRaw = flatten_text [("content", Json.num 5)] ∧
    flatten_text numericContentRaw = "" ∧
    extract_events (fun _ => "ts") [numericContentRaw] = ([], []) ∧
    flatten_text opaqueContentRaw = "" ∧
    extract_events (fun _ => "ts") [opaqueContentRaw] = ([], []) ∧
    flatten_text [("message", Json.obj [("content",
      Json.str "TODO ID: todo-009\nSTATUS: ok\nDIFF: d\nTESTS: t")])] ≠ "" :=
  flatten_text_top_content numericContentRaw [("content", Json.num 5)] (Json.num 5) rfl rfl

/-! ### Greedy event matching of the diff engine -/

/-- Agreement on the matching fields of the greedy scan. -/
def keyMatches (a b : EventKey) : Prop :=
  a.payload_type = b.payload_type ∧ a.todo_id = b.todo_id

instance (a b : EventKey) : Decidable (keyMatches a b) := by
  unfold keyMatches
  infer_instance

/-- Position `i` holds the first unconsumed actual key agreeing with `bk` on
`(payload_type, todo_id)`. -/
def isFirstMatchIdx (akeys : List EventKey) (consumed : List Bool) (bk : EventKey)
    (i : Nat) : Prop :=
  i < akeys.length ∧ consumed.getD i true = false ∧
  keyMatches (akeys.getD i default) bk ∧
  ∀ j, j < i → consumed.getD j true = true ∨ ¬keyMatches (akeys.getD j default) bk

/-- Unfolding `isFirstMatchIdx` at position zero. -/
theorem isFirstMatchIdx_zero (k : EventKey) (ks : List EventKey) (c : Bool)
    (cs : List Bool) (bk : EventKey) :
    isFirstMatchIdx (k :: ks) (c :: cs) bk 0 ↔ (c = false ∧ keyMatches k bk) := by
  unfold isFirstMatchIdx
  constructor
  · rintro ⟨_, h2, h3, _⟩
    exact ⟨by simpa using h2, by simpa using h3⟩
  · rintro ⟨hc, hm⟩
    exact ⟨by simp, by simpa using hc, by simpa using hm,
      fun j hj => absurd hj (Nat.not_lt_zero j)⟩

/-- Unfolding `isFirstMatchIdx` at a successor position. -/
theorem isFirstMatchIdx_succ (k : EventKey) (ks : List EventKey) (c : Bool)
    (cs : List Bool) (bk : EventKey) (m : Nat) :
    isFirstMatchIdx (k :: ks) (c :: cs) bk (m + 1) ↔
      ((c = true ∨ ¬keyMatches k bk) ∧ isFirstMatchIdx ks cs bk m) := by
  unfold isFirstMatchIdx
  constructor
  · rintro ⟨h1, h2, h3, h4⟩
    refine ⟨by simpa using h4 0 (Nat.succ_pos m), ?_, by simpa using h2,
      by simpa using h3, ?_⟩
    · simp only [List.length_cons] at h1
      omega
    · intro j hj
      simpa using h4 (j + 1) (Nat.succ_lt_succ hj)
  · rintro ⟨h0, h1, h2, h3, h4⟩
    refine ⟨?_, by simpa using h2, by simpa using h3, ?_⟩
    · simp only [List.length_cons]
      omega
    · intro j hj
      cases j with
      | zero => simpa using h0
      | succ jm => simpa using h4 jm (Nat.lt_of_succ_lt_succ hj)

/-- The head condition of the `firstMatch` scan, as a Bool identity. -/
theorem firstMatch_cons (k : EventKey) (ks : List EventKey) (c : Bool)
    (cs : List Bool) (bk : EventKey) :
    firstMatch (k :: ks) (c :: cs) bk =
      if c = false ∧ keyMatches k bk then some 0
      else (firstMatch ks cs bk).map (· + 1) := by
  by_cases hd : c = false ∧ keyMatches k bk
  · have hc := hd.1
    have hp := hd.2.1
    have ht := hd.2.2
    subst hc
    simp [firstMatch, hp, ht, hd]
  · rw [if_neg hd]
    have hcond : (!c && k.payload_type = bk.payload_type && k.todo_id = bk.todo_id) = false := by
      by_cases hc : c
      · simp [hc]
      · have hc' : c = false := by simpa using hc
        subst hc'
        have hm : ¬keyMatches k bk := fun hm => hd ⟨rfl, hm⟩
        by_cases hp : k.payload_type = bk.payload_type
        · have ht : ¬k.todo_id = bk.todo_id := fun ht => hm ⟨hp, ht⟩
          simp [hp, ht]
        · simp [hp]
    simp [firstMatch, hcond]

/-- Successor-shift of an optional index. -/
theorem option_map_succ_eq (o : Option Nat) (m : Nat) :
    o.map (· + 1) = some (m + 1) ↔ o = some m := by
  cases o with
  | none => simp
  | some n => simp [Nat.succ_inj]

/-- `firstMatch` finds exactly the least index of an unconsumed actual key
agreeing with the baseline key on `(payload_type, todo_id)`. -/
theorem firstMatch_iff (akeys : List EventKey) (consumed : List Bool) (bk : EventKey)
    (i : Nat) (hlen : consumed.length = akeys.length) :
    firstMatch akeys consumed bk = some i ↔ isFirstMatchIdx akeys consumed bk i := by
  induction akeys generalizing consumed i with
  | nil =>
    cases consumed with
    | nil =>
      simp [firstMatch, isFirstMatchIdx]
    | cons c cs => simp at hlen
  | cons k ks ih =>
    cases consumed with
    | nil => simp at hlen
    | cons c cs =>
      have hlen' : cs.length = ks.length := by simpa using hlen
      rw [firstMatch_cons]
      by_cases hd : c = false ∧ keyMatches k bk
      · rw [if_pos hd]
        cases i with
        | zero =>
          rw [isFirstMatchIdx_zero]
          exact iff_of_true rfl hd
        | succ m =>
          simp only [isFirstMatchIdx_succ]
          constructor
          · intro h
            exact absurd h (by simp)
          · rintro ⟨h0, _⟩
            rcases h0 with h0 | h0
            · rw [hd.1] at h0
              exact absurd h0 (by simp)
            · exact absurd hd.2 h0
      · rw [if_neg hd]
        cases i with
        | zero =>
          simp only [isFirstMatchIdx_zero]
          constructor
          · intro h
            rcases Option.map_eq_some'.mp h with ⟨m, _, hm⟩
            omega
          · intro h
            exact absurd h hd
        | succ m =>
          rw [option_map_succ_eq, isFirstMatchIdx_succ, ih cs m hlen']
          constructor
          · intro h
            refine ⟨?_, h⟩
            by_cases hc : c
            · exact Or.inl hc
            · have hc' : c = false := by simpa using hc
              exact Or.inr fun hm => hd ⟨hc', hm⟩
          · rintro ⟨_, h⟩
            exact h

/-- A routing-mismatch finding is never a missing-event finding: the texts
differ from the first character on. -/
theorem routingMismatchMsg_ne_missingEventMsg (bk ak bk' : EventKey) :
    routingMismatchMsg bk ak ≠ missingEventMsg bk' := by
  intro h
  have h1 : (routingMismatchMsg bk ak).data.head? = some 'R' := rfl
  rw [h] at h1
  have h2 : (missingEventMsg bk').data.head? = some 'M' := rfl
  rw [h2] at h1
  simp at h1

/-- The trailing loop reports exactly the unconsumed actual keys, in order. -/
theorem extraFindings_eq (akeys : List EventKey) (consumed : List Bool) :
    extraFindings akeys consumed =
      ((akeys.zip consumed).filter (fun p => !p.2)).map (fun p => extraEventMsg p.1) := by
  induction akeys generalizing consumed with
  | nil => cases consumed <;> rfl
  | cons k ks ih =>
    cases consumed with
    | nil => rfl
    | cons c cs =>
      cases c <;> simp [extraFindings, ih]

/-- C2: for a baseline event, the scan consumes exactly the first unconsumed
actual event with equal `(payload_type, todo_id)`; a consumed match with a
differing sender or recipient produces exactly one routing-mismatch finding
naming both directions and no missing-event finding; an agreeing match
produces nothing; no match produces exactly the missing-event finding; and
the trailing loop turns exactly the still-unconsumed actual events into
extra-event findings. -/
theorem compare_events_greedy (akeys : List EventKey) (consumed : List Bool)
    (bk : EventKey) (i : Nat) (hlen : consumed.length = akeys.length) :
    (firstMatch akeys consumed bk = some i ↔ isFirstMatchIdx akeys consumed bk i) ∧
    (firstMatch akeys consumed bk = some i →
      (processOne akeys consumed bk).1 = listSet consumed i ∧
      missingEventMsg bk ∉ (processOne akeys consumed bk).2 ∧
      (((akeys.getD i default).sender ≠ bk.sender ∨
          (akeys.getD i default).recipient ≠ bk.recipient) →
        (processOne akeys consumed bk).2 = [routingMismatchMsg bk (akeys.getD i default)]) ∧
      ((akeys.getD i default).sender = bk.sender ∧
          (akeys.getD i default).recipient = bk.recipient →
        (processOne akeys consumed bk).2 = [])) ∧
    (firstMatch akeys consumed bk = none →
      (processOne akeys consumed bk).2 = [missingEventMsg bk]) ∧
    extraFindings akeys consumed =
      ((akeys.zip consumed).filter (fun p => !p.2)).map (fun p => extraEventMsg p.1) := by
  refine ⟨firstMatch_iff akeys consumed bk i hlen, ?_, ?_, extraFindings_eq akeys consumed⟩
  · intro hm
    simp only [processOne, hm]
    refine ⟨trivial, ?_, ?_, ?_⟩
    · split
      · simp only [List.mem_singleton]
        intro h
        exact routingMismatchMsg_ne_missingEventMsg bk _ bk h.symm
      · simp
    · intro hmm
      rw [if_pos hmm]
    · intro heq
      rw [if_neg]
      rintro (h | h)
      · exact h heq.1
      · exact h heq.2
  · intro hm
    simp only [processOne, hm]

/-- Closed witness for C2, at the spec's own example: baseline
(coder_payload, todo-001, orchestrator→coder) against actual
(coder_payload, todo-001, orchestrator→tester) produces exactly one
routing-mismatch finding and consumes the actual event. -/
theorem compare_events_greedy_app :
    (processOne [⟨"coder_payload", "todo-001", "orchestrator", "tester"⟩] [false]
        ⟨"coder_payload", "todo-001", "orchestrator", "coder"⟩).2 =
      [routingMismatchMsg ⟨"coder_payload", "todo-001", "orchestrator", "coder"⟩
        ⟨"coder_payload", "todo-001", "orchestrator", "tester"⟩] ∧
    (processOne [⟨"coder_payload", "todo-001", "orchestrator", "tester"⟩] [false]
        ⟨"coder_payload", "todo-001", "orchestrator", "coder"⟩).1 = listSet [false] 0 := by
  have h := compare_events_greedy [⟨"coder_payload", "todo-001", "orchestrator", "tester"⟩]
    [false] ⟨"coder_payload", "todo-001", "orchestrator", "coder"⟩ 0 rfl
  have hm := (h.2.1 (by decide))
  exact ⟨hm.2.2.1 (by decide), hm.1⟩

/-! ### Diffing a trace against itself -/

/-- Skipping a consumed (all-true-flagged) prefix shifts the scan result. -/
theorem firstMatch_trueFlags_skip (done ks : List EventKey) (cs : List Bool)
    (bk : EventKey) :
    firstMatch (done ++ ks) (List.replicate done.length true ++ cs) bk =
      (firstMatch ks cs bk).map (· + done.length) := by
  induction done with
  | nil =>
    cases h : firstMatch ks cs bk <;> simp [h]
  | cons d ds ih =>
    simp only [List.length_cons, List.replicate_succ, List.cons_append, firstMatch,
      Bool.not_true, Bool.false_and, Bool.false_eq_true, if_false, List.append_eq]
    rw [ih]
    cases h : firstMatch ks cs bk <;> simp [h, Nat.add_assoc]

/-- `getD` at the length of the left part of an append. -/
theorem getD_append_length (done : List EventKey) (bk : EventKey) (rest : List EventKey)
    (d : EventKey) : (done ++ bk :: rest).getD done.length d = bk := by
  induction done with
  | nil => rfl
  | cons x xs ih => simpa using ih

/-- `listSet` right after an all-true replicated prefix of its own length. -/
theorem listSet_replicate_length (n : Nat) (c : Bool) (rest : List Bool) :
    listSet (List.replicate n true ++ c :: rest) n = List.replicate n true ++ true :: rest := by
  induction n with
  | zero => rfl
  | succ m ih => simpa [List.replicate_succ, listSet] using ih

/-- Identity run of the baseline loop: matching a key list against itself
consumes everything left to right and produces no finding. -/
theorem compareLoop_self (pending done : List EventKey) :
    compareLoop (done ++ pending) pending
      (List.replicate done.length true ++ pending.map (fun _ => false)) =
    (List.replicate (done ++ pending).length true, []) := by
  induction pending generalizing done with
  | nil => simp [compareLoop]
  | cons bk rest ih =>
    have hhead : firstMatch (bk :: rest) (false :: rest.map (fun _ => false)) bk =
        some 0 := by
      simp [firstMatch]
    have hfm : firstMatch (done ++ bk :: rest)
        (List.replicate done.length true ++ false :: rest.map (fun _ => false)) bk =
        some done.length := by
      rw [firstMatch_trueFlags_skip done (bk :: rest)
        (false :: rest.map (fun _ => false)) bk, hhead]
      simp
    have hstep : processOne (done ++ bk :: rest)
        (List.replicate done.length true ++ false :: rest.map (fun _ => false)) bk =
        (List.replicate done.length true ++ true :: rest.map (fun _ => false), []) := by
      simp only [processOne, hfm, getD_append_length]
      rw [listSet_replicate_length, if_neg]
      rintro (h | h) <;> exact h rfl
    simp only [List.map_cons]
    rw [compareLoop, hstep]
    simp only [List.nil_append]
    have hrebr1 : done ++ bk :: rest = (done ++ [bk]) ++ rest := by
      simp [List.append_assoc]
    have hrebr2 : List.replicate done.length true ++ true :: rest.map (fun _ => false) =
        List.replicate (done ++ [bk]).length true ++ rest.map (fun _ => false) := by
      have : (done ++ [bk]).length = done.length + 1 := by simp
      rw [this, List.replicate_succ', List.append_assoc]
      rfl
    rw [hrebr1, hrebr2, ih (done ++ [bk])]

/-- Against an all-consumed flag list the trailing loop reports nothing. -/
theorem extraFindings_trueFlags (akeys : List EventKey) (n : Nat) :
    extraFindings akeys (List.replicate n true) = [] := by
  induction akeys generalizing n with
  | nil => rfl
  | cons k ks ih =>
    cases n with
    | zero => rfl
    | succ m => simpa [List.replicate_succ, extraFindings] using ih m

/-- Comparing an event list against itself yields no missing and no extra
findings. -/
theorem compare_events_self (events : List EventRecord) :
    compare_events events events = ([], []) := by
  have h := compareLoop_self (events.map extract_event_key) []
  simp only [List.length_nil, List.replicate_zero, List.nil_append] at h
  simp only [compare_events]
  rw [h]
  simp [extraFindings_trueFlags]

/-- In a duplicate-free mapping every entry looks itself up. -/
theorem dLookup_self_of_nodup (a : List (String × String))
    (h : (a.map Prod.fst).Nodup) (kv : String × String) (hkv : kv ∈ a) :
    dLookup a kv.1 = some kv.2 := by
  induction a with
  | nil => cases hkv
  | cons p rest ih =>
    obtain ⟨k, v⟩ := p
    simp only [List.map_cons, List.nodup_cons] at h
    rcases List.mem_cons.mp hkv with hkv | hkv
    · subst hkv
      simp [dLookup]
    · have hk : ¬(k = kv.1) := fun he => h.1 (he ▸ List.mem_map.mpr ⟨kv, hkv, rfl⟩)
      simp only [dLookup, hk, if_false]
      exact ih h.2 hkv

/-- Python dict equality is reflexive on duplicate-free mappings. -/
theorem pyDictEq_refl (a : List (String × String)) (h : (a.map Prod.fst).Nodup) :
    pyDictEq a a = true := by
  unfold pyDictEq
  rw [Bool.and_self, List.all_eq_true]
  intro kv hkv
  have hlook := dLookup_self_of_nodup a h kv hkv
  simp [hlook]

/-- The positional snapshot loop finds nothing on identical lists with
duplicate-free status mappings. -/
theorem snapshotLoop_self (l : List StateSnapshot) (idx : Nat)
    (h : ∀ s ∈ l, (s.todo_statuses.map Prod.fst).Nodup) :
    snapshotLoop l l idx = [] := by
  induction l generalizing idx with
  | nil => rfl
  | cons s rest ih =>
    have h1 : ¬(s.phase ≠ s.phase) := fun h' => h' rfl
    have h2 : pyDictEq s.todo_statuses s.todo_statuses = true :=
      pyDictEq_refl _ (h s (List.mem_cons_self s rest))
    simp only [snapshotLoop, h1, if_false, h2, Bool.not_true, Bool.false_eq_true,
      List.nil_append]
    exact ih (idx + 1) fun s' hs' => h s' (List.mem_cons_of_mem s hs')

/-- Comparing a snapshot list against itself yields no finding. -/
theorem compare_state_snapshots_self (l : List StateSnapshot)
    (h : ∀ s ∈ l, (s.todo_statuses.map Prod.fst).Nodup) :
    compare_state_snapshots l l = [] := by
  unfold compare_state_snapshots
  rw [snapshotLoop_self l 0 h]
  simp

/-- The validation findings are empty exactly when every validation of the
actual trace passes. -/
theorem collect_validation_failures_eq_nil (vs : List ValidationResult) :
    collect_validation_failures vs = [] ↔ ∀ v ∈ vs, v.status = "pass" := by
  unfold collect_validation_failures
  rw [List.filterMap_eq_nil_iff]
  constructor
  · intro h v hv
    have hv' := h v hv
    by_contra hne
    simp [hne] at hv'
  · intro h v hv
    simp [h v hv]

/-- A well-formed normalized trace one of whose validations failed: its
coder_payload is missing the OUTPUT FORMAT: section, so ingestion records a
"fail" validation (status is "fail" iff missing_sections is non-empty, as the
data model requires). -/
def failingTrace : NormalizedTrace :=
  { session_id := "demo", generated_at := "2025-01-01T00:00:00+00:00",
    events := [
      { sequence := 1, timestamp := "t1", sender := "orchestrator", recipient := "coder",
        role := "delegation", payload_type := "coder_payload",
        content := "TODO ID: todo-001\nOBJECTIVE: x\nREQUIREMENTS: y\nCONSTRAINTS: z" } ],
    state_snapshots := [
      { timestamp := "t1", phase := "bootstrap", active_todo := none,
        todo_statuses := [], note := "Captured session metadata from raw log." } ],
    validations := [
      { name := "coder_payload_todo-001", status := "fail",
        missing_sections := ["OUTPUT FORMAT:"] } ] }

/-- Counterexample to C3: diffing `failingTrace` against itself yields zero
event findings and zero snapshot findings but a non-empty validation-issue
list, because validation findings report the actual trace's own non-pass
validations regardless of the baseline. -/
theorem diff_self_cex :
    compare_events failingTrace.events failingTrace.events = ([], []) ∧
    compare_state_snapshots failingTrace.state_snapshots failingTrace.state_snapshots = [] ∧
    collect_validation_failures failingTrace.validations ≠ [] ∧
    diffFindings failingTrace failingTrace ≠ ([], [], [], []) := by
  refine ⟨by decide, by decide, by decide, by decide⟩

/-- C3 as amended: comparing a well-formed trace against itself yields zero
missing/mismatched-event findings, zero extra-event findings and zero
state-snapshot findings; the validation-issue findings are empty exactly when
every validation of the trace itself passes. -/
theorem diff_self_amended (T : NormalizedTrace)
    (hwf : ∀ s ∈ T.state_snapshots, (s.todo_statuses.map Prod.fst).Nodup) :
    compare_events T.events T.events = ([], []) ∧
    compare_state_snapshots T.state_snapshots T.state_snapshots = [] ∧
    (collect_validation_failures T.validations = [] ↔
      ∀ v ∈ T.validations, v.status = "pass") :=
  ⟨compare_events_self T.events, compare_state_snapshots_self T.state_snapshots hwf,
   collect_validation_failures_eq_nil T.validations⟩

/-- Closed witness for C3's amended statement, instantiated at the concrete
trace with a failing validation. -/
theorem diff_self_amended_app :
    compare_events failingTrace.events failingTrace.events = ([], []) ∧
    compare_state_snapshots failingTrace.state_snapshots failingTrace.state_snapshots = [] ∧
    (collect_validation_failures failingTrace.validations = [] ↔
      ∀ v ∈ failingTrace.validations, v.status = "pass") :=
  diff_self_amended failingTrace (by decide)
